import Mathlib

/-!
Shallow embedding of the token codec of `dmark-go` (package `dmark`):
the seven closed enumerations of the DMARC aggregate-report model and
their `MarshalText` / `UnmarshalText` methods.

Modelling conventions:
* Go's int-backed named enum types (`Alignment`, `Disposition`,
  `PolicyOverride`, `DKIMResult`, `SPFDomainScope`, `SPFResult`) are
  embedded as `Int`, since in Go any integer value is reachable in them
  by numeric conversion; the `iota` constants become explicit `Int`
  constants.
* `Result` is `type Result bool`, embedded as `Bool`.
* A pointer-receiver `UnmarshalText` mutates its receiver only when a
  case of the `switch` matches; we embed it by explicit state passing:
  the function takes the receiver's prior value and returns the new
  value together with the error (`none` = Go `nil`).
* The only errors the package constructs are
  `fmt.Errorf("unexpected <Name> value %q", string(text))`; we embed
  such an error structurally as the pair of the enumeration name that
  appears in the format string and the raw token.
* `strings.ToLower` is embedded as `goToLower`, per-character
  lowercasing; it agrees with Go on every ASCII string (all vocabulary
  tokens are ASCII).
-/

namespace Dmark

/-- Embeds `strings.ToLower`: per-character lowercasing. Coincides with
Go's behaviour on all ASCII strings, which covers every vocabulary token
of the package. -/
def goToLower (s : String) : String :=
  String.mk (s.data.map Char.toLower)

/-- Embeds the errors built by the package, all of the form
`fmt.Errorf("unexpected <enumName> value %q", string(text))`: the
enumeration name written in the format string and the offending raw
token. -/
structure GoError where
  enumName : String
  token : String
deriving DecidableEq, Repr

/-- `type Alignment int` -/
abbrev Alignment := Int

def AlignmentRelaxed : Alignment := 0
def AlignmentStrict : Alignment := 1

/-- `func (a Alignment) MarshalText() (text []byte, err error)` -/
def Alignment.MarshalText (a : Alignment) : String × Option GoError :=
  if a = AlignmentRelaxed then ("relaxed", none)
  else if a = AlignmentStrict then ("strict", none)
  else ("unknown", none)

/-- `func (a *Alignment) UnmarshalText(text []byte) error` -/
def Alignment.UnmarshalText (a : Alignment) (text : String) : Alignment × Option GoError :=
  if goToLower text = "r" then (AlignmentRelaxed, none)
  else if goToLower text = "s" then (AlignmentStrict, none)
  else (a, some ⟨"Alignment", text⟩)

/-- `type Disposition int` -/
abbrev Disposition := Int

def DispositionNone : Disposition := 0
def DispositionQuarantine : Disposition := 1
def DispositionReject : Disposition := 2

/-- `func (disp Disposition) MarshalText() (text []byte, err error)` -/
def Disposition.MarshalText (disp : Disposition) : String × Option GoError :=
  if disp = DispositionNone then ("none", none)
  else if disp = DispositionQuarantine then ("quarantine", none)
  else if disp = DispositionReject then ("reject", none)
  else ("unknown", none)

/-- `func (disp *Disposition) UnmarshalText(text []byte) error` -/
def Disposition.UnmarshalText (disp : Disposition) (text : String) :
    Disposition × Option GoError :=
  if goToLower text = "none" then (DispositionNone, none)
  else if goToLower text = "quarantine" then (DispositionQuarantine, none)
  else if goToLower text = "reject" then (DispositionReject, none)
  else (disp, some ⟨"Disposition", text⟩)

/-- `type Result bool` (true = "pass", false = "fail") -/
abbrev Result := Bool

/-- `func (r *Result) MarshalText() (text []byte, err error)`.

The Go body switches on `strings.ToLower(string(text))` where `text` is
the function's own named *return* value, still at its zero value `nil`
at that point, so `string(text)` is the empty string; the receiver `r`
is never read. -/
def Result.MarshalText (_r : Result) : String × Option GoError :=
  let text : String := ""
  if goToLower text = "true" then ("true", none)
  else ("false", none)

/-- `func (r *Result) UnmarshalText(text []byte) error` -/
def Result.UnmarshalText (_r : Result) (text : String) : Result × Option GoError :=
  (goToLower text == "pass", none)

/-- `type PolicyOverride int` -/
abbrev PolicyOverride := Int

def PolicyOverrideForwarded : PolicyOverride := 0
def PolicyOverrideSampledOut : PolicyOverride := 1
def PolicyOverrideTrustedForwarder : PolicyOverride := 2
def PolicyOverrideMailingList : PolicyOverride := 3
def PolicyOverrideLocalPolicy : PolicyOverride := 4
def PolicyOverrideOther : PolicyOverride := 5

/-- `func (po PolicyOverride) MarshalText() (text []byte, err error)` -/
def PolicyOverride.MarshalText (po : PolicyOverride) : String × Option GoError :=
  if po = PolicyOverrideForwarded then ("forwarded", none)
  else if po = PolicyOverrideSampledOut then ("sampled_out", none)
  else if po = PolicyOverrideTrustedForwarder then ("trusted_forwarder", none)
  else if po = PolicyOverrideMailingList then ("mailing_list", none)
  else if po = PolicyOverrideLocalPolicy then ("local_policy", none)
  else if po = PolicyOverrideOther then ("other", none)
  else ("unknown", none)

/-- `func (po *PolicyOverride) UnmarshalText(text []byte) error` -/
def PolicyOverride.UnmarshalText (po : PolicyOverride) (text : String) :
    PolicyOverride × Option GoError :=
  if goToLower text = "forwarded" then (PolicyOverrideForwarded, none)
  else if goToLower text = "sampled_out" then (PolicyOverrideSampledOut, none)
  else if goToLower text = "trusted_forwarder" then (PolicyOverrideTrustedForwarder, none)
  else if goToLower text = "mailing_list" then (PolicyOverrideMailingList, none)
  else if goToLower text = "local_policy" then (PolicyOverrideLocalPolicy, none)
  else if goToLower text = "other" then (PolicyOverrideOther, none)
  else (po, some ⟨"PolicyOverride", text⟩)

/-- `type DKIMResult int` -/
abbrev DKIMResult := Int

def DKIMResultNone : DKIMResult := 0
def DKIMResultPass : DKIMResult := 1
def DKIMResultFail : DKIMResult := 2
def DKIMResultPolicy : DKIMResult := 3
def DKIMResultNeutral : DKIMResult := 4
def DKIMResultTempError : DKIMResult := 5
def DKIMResultPermError : DKIMResult := 6

/-- `func (dkimr DKIMResult) MarshalText() (text []byte, err error)` -/
def DKIMResult.MarshalText (dkimr : DKIMResult) : String × Option GoError :=
  if dkimr = DKIMResultNone then ("none", none)
  else if dkimr = DKIMResultPass then ("pass", none)
  else if dkimr = DKIMResultFail then ("fail", none)
  else if dkimr = DKIMResultPolicy then ("policy", none)
  else if dkimr = DKIMResultNeutral then ("neutral", none)
  else if dkimr = DKIMResultTempError then ("temperror", none)
  else if dkimr = DKIMResultPermError then ("permerror", none)
  else ("unknown", none)

/-- `func (dkimr *DKIMResult) UnmarshalText(text []byte) error`.

The default branch of the source's `switch` builds
`fmt.Errorf("unexpected SPFResult value %q", string(text))`: the format
string written in `DKIMResult.UnmarshalText` names `SPFResult`. -/
def DKIMResult.UnmarshalText (dkimr : DKIMResult) (text : String) :
    DKIMResult × Option GoError :=
  if goToLower text = "none" then (DKIMResultNone, none)
  else if goToLower text = "pass" then (DKIMResultPass, none)
  else if goToLower text = "fail" then (DKIMResultFail, none)
  else if goToLower text = "policy" then (DKIMResultPolicy, none)
  else if goToLower text = "neutral" then (DKIMResultNeutral, none)
  else if goToLower text = "temperror" then (DKIMResultTempError, none)
  else if goToLower text = "permerror" then (DKIMResultPermError, none)
  else (dkimr, some ⟨"SPFResult", text⟩)

/-- `type SPFDomainScope int` -/
abbrev SPFDomainScope := Int

def SPFDomainScopeHelo : SPFDomainScope := 0
def SPFDomainScopeMFrom : SPFDomainScope := 1

/-- `func (sds SPFDomainScope) MarshalText() (text []byte, err error)` -/
def SPFDomainScope.MarshalText (sds : SPFDomainScope) : String × Option GoError :=
  if sds = SPFDomainScopeHelo then ("helo", none)
  else if sds = SPFDomainScopeMFrom then ("mfrom", none)
  else ("unknown", none)

/-- `func (sds *SPFDomainScope) UnmarshalText(text []byte) error` -/
def SPFDomainScope.UnmarshalText (sds : SPFDomainScope) (text : String) :
    SPFDomainScope × Option GoError :=
  if goToLower text = "helo" then (SPFDomainScopeHelo, none)
  else if goToLower text = "mfrom" then (SPFDomainScopeMFrom, none)
  else (sds, some ⟨"SPFDomainScope", text⟩)

/-- `type SPFResult int` -/
abbrev SPFResult := Int

def SPFResultNone : SPFResult := 0
def SPFResultNeutral : SPFResult := 1
def SPFResultPass : SPFResult := 2
def SPFResultFail : SPFResult := 3
def SPFResultSoftFail : SPFResult := 4
def SPFResultTempError : SPFResult := 5
def SPFResultPermError : SPFResult := 6

/-- `func (spfr SPFResult) MarshalText() (text []byte, err error)` -/
def SPFResult.MarshalText (spfr : SPFResult) : String × Option GoError :=
  if spfr = SPFResultNone then ("none", none)
  else if spfr = SPFResultNeutral then ("neutral", none)
  else if spfr = SPFResultPass then ("pass", none)
  else if spfr = SPFResultFail then ("fail", none)
  else if spfr = SPFResultSoftFail then ("softfail", none)
  else if spfr = SPFResultTempError then ("temperror", none)
  else if spfr = SPFResultPermError then ("permerror", none)
  else ("unknown", none)

/-- `func (spfr *SPFResult) UnmarshalText(text []byte) error` -/
def SPFResult.UnmarshalText (spfr : SPFResult) (text : String) :
    SPFResult × Option GoError :=
  if goToLower text = "none" then (SPFResultNone, none)
  else if goToLower text = "neutral" then (SPFResultNeutral, none)
  else if goToLower text = "pass" then (SPFResultPass, none)
  else if goToLower text = "fail" then (SPFResultFail, none)
  else if goToLower text = "softfail" then (SPFResultSoftFail, none)
  else if goToLower text = "temperror" then (SPFResultTempError, none)
  else if goToLower text = "permerror" then (SPFResultPermError, none)
  else (spfr, some ⟨"SPFResult", text⟩)

/-- `type SPFAuthResult struct { Domain string; Scope SPFDomainScope; Result SPFResult }` -/
structure SPFAuthResult where
  Domain : String
  Scope : SPFDomainScope
  Result : SPFResult
deriving DecidableEq, Repr

/-- The Go zero value of `SPFAuthResult`: each field at its type's zero
value (`""` for `string`, `0` for the int-backed enums). A decode that
never sets the `Scope` field leaves it at this value. -/
def SPFAuthResult.zeroValue : SPFAuthResult :=
  { Domain := "", Scope := 0, Result := 0 }

/-- Counterexample to C1 as stated: the round-trip fails for two of the
seven enumerations. Decoding the encoded token of `AlignmentRelaxed`
(`"relaxed"`) is an error, since `Alignment.UnmarshalText` only accepts
`"r"`/`"s"`; and `Result` `true` encodes to `"false"`, which decodes back
to `false`, not `true`. -/
theorem C1_counterexample :
    (Alignment.UnmarshalText AlignmentRelaxed
      (Alignment.MarshalText AlignmentRelaxed).1).2 ≠ none ∧
    (Result.UnmarshalText true (Result.MarshalText true).1).1 ≠ true := by
  decide

/-- C1 (amended): `decode(encode(m)) = m` holds for every defined member of
`Disposition`, `PolicyOverride`, `DKIMResult`, `SPFDomainScope` and
`SPFResult` (even from a different prior receiver value), and for `Result`
`false`; every encoded token of all seven enumerations is case-stable
lowercase; but `Alignment`'s encoded tokens are rejected by its decoder,
and `Result` `true` encodes to `"false"`. -/
theorem C1_roundtrip_amended :
    (List.all [DispositionNone, DispositionQuarantine, DispositionReject] (fun m =>
      decide (Disposition.UnmarshalText (m + 1) (Disposition.MarshalText m).1
        = (m, none))) = true) ∧
    (List.all [PolicyOverrideForwarded, PolicyOverrideSampledOut,
        PolicyOverrideTrustedForwarder, PolicyOverrideMailingList,
        PolicyOverrideLocalPolicy, PolicyOverrideOther] (fun m =>
      decide (PolicyOverride.UnmarshalText (m + 1) (PolicyOverride.MarshalText m).1
        = (m, none))) = true) ∧
    (List.all [DKIMResultNone, DKIMResultPass, DKIMResultFail, DKIMResultPolicy,
        DKIMResultNeutral, DKIMResultTempError, DKIMResultPermError] (fun m =>
      decide (DKIMResult.UnmarshalText (m + 1) (DKIMResult.MarshalText m).1
        = (m, none))) = true) ∧
    (List.all [SPFDomainScopeHelo, SPFDomainScopeMFrom] (fun m =>
      decide (SPFDomainScope.UnmarshalText (m + 1) (SPFDomainScope.MarshalText m).1
        = (m, none))) = true) ∧
    (List.all [SPFResultNone, SPFResultNeutral, SPFResultPass, SPFResultFail,
        SPFResultSoftFail, SPFResultTempError, SPFResultPermError] (fun m =>
      decide (SPFResult.UnmarshalText (m + 1) (SPFResult.MarshalText m).1
        = (m, none))) = true) ∧
    Result.UnmarshalText true (Result.MarshalText false).1 = (false, none) ∧
    (List.all [AlignmentRelaxed, AlignmentStrict] (fun m =>
      decide (goToLower (Alignment.MarshalText m).1 = (Alignment.MarshalText m).1) &&
      decide ((Alignment.UnmarshalText m (Alignment.MarshalText m).1).2 ≠ none)) = true) ∧
    (List.all [DispositionNone, DispositionQuarantine, DispositionReject] (fun m =>
      decide (goToLower (Disposition.MarshalText m).1 = (Disposition.MarshalText m).1))
      = true) ∧
    (List.all [PolicyOverrideForwarded, PolicyOverrideSampledOut,
        PolicyOverrideTrustedForwarder, PolicyOverrideMailingList,
        PolicyOverrideLocalPolicy, PolicyOverrideOther] (fun m =>
      decide (goToLower (PolicyOverride.MarshalText m).1 = (PolicyOverride.MarshalText m).1))
      = true) ∧
    (List.all [DKIMResultNone, DKIMResultPass, DKIMResultFail, DKIMResultPolicy,
        DKIMResultNeutral, DKIMResultTempError, DKIMResultPermError] (fun m =>
      decide (goToLower (DKIMResult.MarshalText m).1 = (DKIMResult.MarshalText m).1))
      = true) ∧
    (List.all [SPFDomainScopeHelo, SPFDomainScopeMFrom] (fun m =>
      decide (goToLower (SPFDomainScope.MarshalText m).1 = (SPFDomainScope.MarshalText m).1))
      = true) ∧
    (List.all [SPFResultNone, SPFResultNeutral, SPFResultPass, SPFResultFail,
        SPFResultSoftFail, SPFResultTempError, SPFResultPermError] (fun m =>
      decide (goToLower (SPFResult.MarshalText m).1 = (SPFResult.MarshalText m).1))
      = true) ∧
    (∀ r : Result, goToLower (Result.MarshalText r).1 = (Result.MarshalText r).1) := by
  decide

/-- C4: `Alignment.UnmarshalText` succeeds exactly on tokens whose lowercase
form is `"r"` or `"s"`, mapping them to `AlignmentRelaxed` and
`AlignmentStrict`; in particular the canonical encode outputs `"relaxed"`
and `"strict"` are rejected with an error. -/
theorem C4_alignment_decode_exactly_r_s :
    (∀ (a : Alignment) (t : String),
      (Alignment.UnmarshalText a t).2 = none ↔
        (goToLower t = "r" ∨ goToLower t = "s")) ∧
    (∀ (a : Alignment) (t : String), goToLower t = "r" →
      Alignment.UnmarshalText a t = (AlignmentRelaxed, none)) ∧
    (∀ (a : Alignment) (t : String), goToLower t = "s" →
      Alignment.UnmarshalText a t = (AlignmentStrict, none)) ∧
    (∀ a ∈ ([AlignmentRelaxed, AlignmentStrict] : List Alignment),
      (Alignment.UnmarshalText a (Alignment.MarshalText AlignmentRelaxed).1).2 ≠ none ∧
      (Alignment.UnmarshalText a (Alignment.MarshalText AlignmentStrict).1).2 ≠ none) := by
  refine ⟨fun a t => ?_, fun a t h => ?_, fun a t h => ?_, by decide⟩
  · unfold Alignment.UnmarshalText
    split_ifs <;> simp_all
  · unfold Alignment.UnmarshalText
    simp [h]
  · unfold Alignment.UnmarshalText
    simp [h]

/-- Witness for C4: the accepting parts applied at the concrete tokens
`"R"` and `"S"`, and the rejecting part at the encode output of
`AlignmentRelaxed`. -/
theorem C4_witness :
    Alignment.UnmarshalText AlignmentStrict "R" = (AlignmentRelaxed, none) ∧
    Alignment.UnmarshalText AlignmentRelaxed "S" = (AlignmentStrict, none) ∧
    (Alignment.UnmarshalText AlignmentRelaxed
      (Alignment.MarshalText AlignmentRelaxed).1).2 ≠ none :=
  ⟨C4_alignment_decode_exactly_r_s.2.1 AlignmentStrict "R" (by decide),
   C4_alignment_decode_exactly_r_s.2.2.1 AlignmentRelaxed "S" (by decide),
   (C4_alignment_decode_exactly_r_s.2.2.2 AlignmentRelaxed (by decide)).1⟩

/-- C5: `PolicyOverride.UnmarshalText` fails exactly on tokens whose
lowercase form is outside
{forwarded, sampled_out, trusted_forwarder, mailing_list, local_policy,
other}; the failure carries the `PolicyOverride` enumeration name and the
raw token; and a token in the vocabulary, in any case, decodes to the
corresponding member. -/
theorem C5_policyoverride_decode_vocabulary :
    (∀ (po : PolicyOverride) (t : String),
      (PolicyOverride.UnmarshalText po t).2 ≠ none ↔
        goToLower t ∉ (["forwarded", "sampled_out", "trusted_forwarder",
          "mailing_list", "local_policy", "other"] : List String)) ∧
    (∀ (po : PolicyOverride) (t : String),
      (PolicyOverride.UnmarshalText po t).2 ≠ none →
      (PolicyOverride.UnmarshalText po t).2 = some ⟨"PolicyOverride", t⟩) ∧
    (∀ p ∈ ([("forwarded", PolicyOverrideForwarded),
        ("sampled_out", PolicyOverrideSampledOut),
        ("trusted_forwarder", PolicyOverrideTrustedForwarder),
        ("mailing_list", PolicyOverrideMailingList),
        ("local_policy", PolicyOverrideLocalPolicy),
        ("other", PolicyOverrideOther)] : List (String × PolicyOverride)),
      ∀ (po : PolicyOverride) (t : String), goToLower t = p.1 →
        PolicyOverride.UnmarshalText po t = (p.2, none)) := by
  refine ⟨fun po t => ?_, fun po t h => ?_, fun p hp po t h => ?_⟩
  · unfold PolicyOverride.UnmarshalText
    split_ifs <;> simp_all
  · unfold PolicyOverride.UnmarshalText at h ⊢
    split_ifs at h ⊢ <;> simp_all
  · simp at hp
    rcases hp with rfl | rfl | rfl | rfl | rfl | rfl <;>
      · unfold PolicyOverride.UnmarshalText
        simp [h]

/-- Witness for C5: the error shape applied at the rejected token `"x"`,
and the accepting part applied at the mixed-case token `"Mailing_List"`. -/
theorem C5_witness :
    (PolicyOverride.UnmarshalText PolicyOverrideOther "x").2 =
      some ⟨"PolicyOverride", "x"⟩ ∧
    PolicyOverride.UnmarshalText PolicyOverrideForwarded "Mailing_List" =
      (PolicyOverrideMailingList, none) :=
  ⟨C5_policyoverride_decode_vocabulary.2.1 PolicyOverrideOther "x" (by decide),
   C5_policyoverride_decode_vocabulary.2.2
     ("mailing_list", PolicyOverrideMailingList) (by decide)
     PolicyOverrideForwarded "Mailing_List" (by decide)⟩

/-- C8: decode is case-insensitive for every enumeration: any token whose
lowercase form equals a vocabulary token decodes, from any prior receiver
value, to the same member and nil error as the canonical lowercase token;
for `Result`, any case variant of `"pass"` decodes to `true`. -/
theorem C8_decode_case_insensitive :
    (∀ p ∈ ([("r", AlignmentRelaxed), ("s", AlignmentStrict)] :
        List (String × Alignment)),
      ∀ (a : Alignment) (t : String), goToLower t = p.1 →
        Alignment.UnmarshalText a t = (p.2, none)) ∧
    (∀ p ∈ ([("none", DispositionNone), ("quarantine", DispositionQuarantine),
        ("reject", DispositionReject)] : List (String × Disposition)),
      ∀ (d : Disposition) (t : String), goToLower t = p.1 →
        Disposition.UnmarshalText d t = (p.2, none)) ∧
    (∀ p ∈ ([("forwarded", PolicyOverrideForwarded),
        ("sampled_out", PolicyOverrideSampledOut),
        ("trusted_forwarder", PolicyOverrideTrustedForwarder),
        ("mailing_list", PolicyOverrideMailingList),
        ("local_policy", PolicyOverrideLocalPolicy),
        ("other", PolicyOverrideOther)] : List (String × PolicyOverride)),
      ∀ (po : PolicyOverride) (t : String), goToLower t = p.1 →
        PolicyOverride.UnmarshalText po t = (p.2, none)) ∧
    (∀ p ∈ ([("none", DKIMResultNone), ("pass", DKIMResultPass),
        ("fail", DKIMResultFail), ("policy", DKIMResultPolicy),
        ("neutral", DKIMResultNeutral), ("temperror", DKIMResultTempError),
        ("permerror", DKIMResultPermError)] : List (String × DKIMResult)),
      ∀ (dk : DKIMResult) (t : String), goToLower t = p.1 →
        DKIMResult.UnmarshalText dk t = (p.2, none)) ∧
    (∀ p ∈ ([("helo", SPFDomainScopeHelo), ("mfrom", SPFDomainScopeMFrom)] :
        List (String × SPFDomainScope)),
      ∀ (s : SPFDomainScope) (t : String), goToLower t = p.1 →
        SPFDomainScope.UnmarshalText s t = (p.2, none)) ∧
    (∀ p ∈ ([("none", SPFResultNone), ("neutral", SPFResultNeutral),
        ("pass", SPFResultPass), ("fail", SPFResultFail),
        ("softfail", SPFResultSoftFail), ("temperror", SPFResultTempError),
        ("permerror", SPFResultPermError)] : List (String × SPFResult)),
      ∀ (s : SPFResult) (t : String), goToLower t = p.1 →
        SPFResult.UnmarshalText s t = (p.2, none)) ∧
    (∀ (r : Result) (t : String), goToLower t = "pass" →
      Result.UnmarshalText r t = (true, none)) := by
  refine ⟨fun p hp a t h => ?_, fun p hp d t h => ?_, fun p hp po t h => ?_,
    fun p hp dk t h => ?_, fun p hp s t h => ?_, fun p hp s t h => ?_,
    fun r t h => ?_⟩
  · simp at hp
    rcases hp with rfl | rfl <;>
      · unfold Alignment.UnmarshalText
        simp [h]
  · simp at hp
    rcases hp with rfl | rfl | rfl <;>
      · unfold Disposition.UnmarshalText
        simp [h]
  · simp at hp
    rcases hp with rfl | rfl | rfl | rfl | rfl | rfl <;>
      · unfold PolicyOverride.UnmarshalText
        simp [h]
  · simp at hp
    rcases hp with rfl | rfl | rfl | rfl | rfl | rfl | rfl <;>
      · unfold DKIMResult.UnmarshalText
        simp [h]
  · simp at hp
    rcases hp with rfl | rfl <;>
      · unfold SPFDomainScope.UnmarshalText
        simp [h]
  · simp at hp
    rcases hp with rfl | rfl | rfl | rfl | rfl | rfl | rfl <;>
      · unfold SPFResult.UnmarshalText
        simp [h]
  · unfold Result.UnmarshalText
    rw [h]
    decide

/-- Witness for C8: each of the seven case-insensitivity statements applied
at a concrete mixed-case token. -/
theorem C8_witness :
    Alignment.UnmarshalText AlignmentRelaxed "S" = (AlignmentStrict, none) ∧
    Disposition.UnmarshalText DispositionNone "QUARANTINE" =
      (DispositionQuarantine, none) ∧
    PolicyOverride.UnmarshalText PolicyOverrideOther "TRUSTED_FORWARDER" =
      (PolicyOverrideTrustedForwarder, none) ∧
    DKIMResult.UnmarshalText DKIMResultNone "TempError" =
      (DKIMResultTempError, none) ∧
    SPFDomainScope.UnmarshalText SPFDomainScopeHelo "MFrom" =
      (SPFDomainScopeMFrom, none) ∧
    SPFResult.UnmarshalText SPFResultNone "SoftFail" = (SPFResultSoftFail, none) ∧
    Result.UnmarshalText false "Pass" = (true, none) :=
  ⟨C8_decode_case_insensitive.1 ("s", AlignmentStrict) (by decide)
     AlignmentRelaxed "S" (by decide),
   C8_decode_case_insensitive.2.1 ("quarantine", DispositionQuarantine) (by decide)
     DispositionNone "QUARANTINE" (by decide),
   C8_decode_case_insensitive.2.2.1
     ("trusted_forwarder", PolicyOverrideTrustedForwarder) (by decide)
     PolicyOverrideOther "TRUSTED_FORWARDER" (by decide),
   C8_decode_case_insensitive.2.2.2.1 ("temperror", DKIMResultTempError) (by decide)
     DKIMResultNone "TempError" (by decide),
   C8_decode_case_insensitive.2.2.2.2.1 ("mfrom", SPFDomainScopeMFrom) (by decide)
     SPFDomainScopeHelo "MFrom" (by decide),
   C8_decode_case_insensitive.2.2.2.2.2.1 ("softfail", SPFResultSoftFail) (by decide)
     SPFResultNone "SoftFail" (by decide),
   C8_decode_case_insensitive.2.2.2.2.2.2 false "Pass" (by decide)⟩

/-- C2: `Result.MarshalText` switches on its own (still zero-valued) named
return instead of the receiver's boolean, so for every `Result` value, both
`true` and `false`, it returns the token `"false"` with a nil error; in
particular encoding `true` does not yield `"true"`. -/
theorem C2_result_marshal_ignores_value :
    (∀ r : Result, Result.MarshalText r = ("false", none)) ∧
    (Result.MarshalText true).1 ≠ "true" := by
  decide

/-- Counterexample to C3 as stated: `"PASS"` differs from `"pass"` only in
letter case, yet it decodes to `true` (with no error), not to `false` as the
claim's parenthetical asserts. -/
theorem C3_counterexample :
    goToLower "PASS" = "pass" ∧ "PASS" ≠ "pass" ∧
    Result.UnmarshalText false "PASS" = (true, none) := by
  decide

/-- C3 (amended): `Result.UnmarshalText` never fails, and stores `true`
exactly when the lowercase form of the token is `"pass"`; every token whose
lowercase form is not `"pass"` (garbage included) decodes to `false`, while
tokens differing from `"pass"` only in case decode to `true`. -/
theorem C3_result_unmarshal_total (r : Result) (t : String) :
    (Result.UnmarshalText r t).2 = none ∧
    ((Result.UnmarshalText r t).1 = true ↔ goToLower t = "pass") := by
  unfold Result.UnmarshalText
  exact ⟨rfl, by simp⟩

/-- C6: for each of the six int-backed enumerations, `MarshalText` returns a
nil error on every value, and returns the token `"unknown"` exactly on the
values outside the enumeration's defined member set. -/
theorem C6_marshal_total_unknown_fallback :
    (∀ v : Alignment, (Alignment.MarshalText v).2 = none ∧
      ((Alignment.MarshalText v).1 = "unknown" ↔
        ¬(v = AlignmentRelaxed ∨ v = AlignmentStrict))) ∧
    (∀ v : Disposition, (Disposition.MarshalText v).2 = none ∧
      ((Disposition.MarshalText v).1 = "unknown" ↔
        ¬(v = DispositionNone ∨ v = DispositionQuarantine ∨ v = DispositionReject))) ∧
    (∀ v : PolicyOverride, (PolicyOverride.MarshalText v).2 = none ∧
      ((PolicyOverride.MarshalText v).1 = "unknown" ↔
        ¬(v = PolicyOverrideForwarded ∨ v = PolicyOverrideSampledOut ∨
          v = PolicyOverrideTrustedForwarder ∨ v = PolicyOverrideMailingList ∨
          v = PolicyOverrideLocalPolicy ∨ v = PolicyOverrideOther))) ∧
    (∀ v : DKIMResult, (DKIMResult.MarshalText v).2 = none ∧
      ((DKIMResult.MarshalText v).1 = "unknown" ↔
        ¬(v = DKIMResultNone ∨ v = DKIMResultPass ∨ v = DKIMResultFail ∨
          v = DKIMResultPolicy ∨ v = DKIMResultNeutral ∨ v = DKIMResultTempError ∨
          v = DKIMResultPermError))) ∧
    (∀ v : SPFDomainScope, (SPFDomainScope.MarshalText v).2 = none ∧
      ((SPFDomainScope.MarshalText v).1 = "unknown" ↔
        ¬(v = SPFDomainScopeHelo ∨ v = SPFDomainScopeMFrom))) ∧
    (∀ v : SPFResult, (SPFResult.MarshalText v).2 = none ∧
      ((SPFResult.MarshalText v).1 = "unknown" ↔
        ¬(v = SPFResultNone ∨ v = SPFResultNeutral ∨ v = SPFResultPass ∨
          v = SPFResultFail ∨ v = SPFResultSoftFail ∨ v = SPFResultTempError ∨
          v = SPFResultPermError))) := by
  refine ⟨fun v => ?_, fun v => ?_, fun v => ?_, fun v => ?_, fun v => ?_, fun v => ?_⟩
  · unfold Alignment.MarshalText
    split_ifs <;> simp_all
  · unfold Disposition.MarshalText
    split_ifs <;> simp_all
  · unfold PolicyOverride.MarshalText
    split_ifs <;> simp_all
  · unfold DKIMResult.MarshalText
    split_ifs <;> simp_all
  · unfold SPFDomainScope.MarshalText
    split_ifs <;> simp_all
  · unfold SPFResult.MarshalText
    split_ifs <;> simp_all

/-- C7 evaluated at a failing input: `DKIMResult.UnmarshalText` on the
unknown token `"bogus"` produces the error whose format string names the
`SPFResult` enumeration, not `DKIMResult` — the raw token is carried, but
the enumeration named is the wrong one. -/
theorem C7_dkim_error_names_spfresult :
    (DKIMResult.UnmarshalText DKIMResultNone "bogus").2 =
      some ⟨"SPFResult", "bogus"⟩ ∧
    ("SPFResult" : String) ≠ "DKIMResult" := by
  decide

/-- C9: the `iota`-zero member `SPFDomainScopeHelo` is the Go zero value of
`SPFDomainScope`, so an `SPFAuthResult` whose scope was never set by a
decode holds the helo member, which encodes to `"helo"` with no error. -/
theorem C9_scope_zero_value_is_helo :
    SPFDomainScopeHelo = (0 : Int) ∧
    SPFAuthResult.zeroValue.Scope = SPFDomainScopeHelo ∧
    SPFDomainScope.MarshalText SPFAuthResult.zeroValue.Scope = ("helo", none) := by
  decide

/-- C10: for the six strict enumerations, a failed `UnmarshalText` leaves the
receiver unchanged: whenever the call returns an error, the stored value
still equals the prior value. -/
theorem C10_unmarshal_atomic_on_error :
    (∀ (a : Alignment) (t : String),
      (Alignment.UnmarshalText a t).2 ≠ none → (Alignment.UnmarshalText a t).1 = a) ∧
    (∀ (d : Disposition) (t : String),
      (Disposition.UnmarshalText d t).2 ≠ none → (Disposition.UnmarshalText d t).1 = d) ∧
    (∀ (po : PolicyOverride) (t : String),
      (PolicyOverride.UnmarshalText po t).2 ≠ none → (PolicyOverride.UnmarshalText po t).1 = po) ∧
    (∀ (dk : DKIMResult) (t : String),
      (DKIMResult.UnmarshalText dk t).2 ≠ none → (DKIMResult.UnmarshalText dk t).1 = dk) ∧
    (∀ (s : SPFDomainScope) (t : String),
      (SPFDomainScope.UnmarshalText s t).2 ≠ none → (SPFDomainScope.UnmarshalText s t).1 = s) ∧
    (∀ (s : SPFResult) (t : String),
      (SPFResult.UnmarshalText s t).2 ≠ none → (SPFResult.UnmarshalText s t).1 = s) := by
  refine ⟨fun v t h => ?_, fun v t h => ?_, fun v t h => ?_,
    fun v t h => ?_, fun v t h => ?_, fun v t h => ?_⟩
  · unfold Alignment.UnmarshalText at h ⊢
    split_ifs at h ⊢ <;> simp_all
  · unfold Disposition.UnmarshalText at h ⊢
    split_ifs at h ⊢ <;> simp_all
  · unfold PolicyOverride.UnmarshalText at h ⊢
    split_ifs at h ⊢ <;> simp_all
  · unfold DKIMResult.UnmarshalText at h ⊢
    split_ifs at h ⊢ <;> simp_all
  · unfold SPFDomainScope.UnmarshalText at h ⊢
    split_ifs at h ⊢ <;> simp_all
  · unfold SPFResult.UnmarshalText at h ⊢
    split_ifs at h ⊢ <;> simp_all

/-- Witness for C10: each of the six atomicity statements applied at a
concrete rejected token, the error hypothesis discharged by evaluation. -/
theorem C10_witness :
    (Alignment.UnmarshalText AlignmentStrict "zz").1 = AlignmentStrict ∧
    (Disposition.UnmarshalText DispositionReject "zz").1 = DispositionReject ∧
    (PolicyOverride.UnmarshalText PolicyOverrideOther "zz").1 = PolicyOverrideOther ∧
    (DKIMResult.UnmarshalText DKIMResultFail "zz").1 = DKIMResultFail ∧
    (SPFDomainScope.UnmarshalText SPFDomainScopeMFrom "zz").1 = SPFDomainScopeMFrom ∧
    (SPFResult.UnmarshalText SPFResultSoftFail "zz").1 = SPFResultSoftFail :=
  ⟨C10_unmarshal_atomic_on_error.1 AlignmentStrict "zz" (by decide),
   C10_unmarshal_atomic_on_error.2.1 DispositionReject "zz" (by decide),
   C10_unmarshal_atomic_on_error.2.2.1 PolicyOverrideOther "zz" (by decide),
   C10_unmarshal_atomic_on_error.2.2.2.1 DKIMResultFail "zz" (by decide),
   C10_unmarshal_atomic_on_error.2.2.2.2.1 SPFDomainScopeMFrom "zz" (by decide),
   C10_unmarshal_atomic_on_error.2.2.2.2.2 SPFResultSoftFail "zz" (by decide)⟩

end Dmark
